import Mathlib

/-!
Shallow embedding of `src/cly/_rlext.c`, the readline glue module of the
`cly` repository, together with proofs of the specified properties of its
three operations: `bind_key` (registration), `bind_key_handler` (dispatch of
a key press by readline), and `cursor` (get/set of `rl_point`).

The embedding models the CPython/readline environment explicitly:
- a `PyObj` is an opaque Python object carrying an identity, whether it is
  callable (`PyCallable_Check`), and whether invoking it raises
  (`PyEval_CallObject` returning NULL);
- the module state `RLState` carries the static array `bind_key_map`
  (callback and captured thread state per key slot, zero-initialized), the
  set of keys handed to `rl_bind_key`, per-object reference-count deltas
  (`Py_XINCREF` / `Py_DECREF`), the CPython pending-error indicator
  (`PyErr_SetString` / `PyErr_Clear`), and readline's `rl_point` / `rl_end`;
- dispatch additionally produces the ordered trace of thread-state events
  (`PyEval_RestoreThread`, the handler invocation, `PyEval_SaveThread`).
-/

/-- An opaque Python object reference. `callable` models `PyCallable_Check`;
`fails` models whether calling it raises an exception, making
`PyEval_CallObject` return NULL. -/
structure PyObj where
  id : Nat
  callable : Bool
  fails : Bool
deriving DecidableEq, Repr

/-- One slot of the static `bind_key_map[256]` array: a callback pointer
(NULL modeled as `none`) and the captured `PyThreadState *`. The array is
static, hence zero-initialized: `⟨none, 0⟩` in every slot initially. -/
structure Binding where
  callback : Option PyObj
  tstate : Nat
deriving DecidableEq, Repr

/-- The mutable state touched by `_rlext.c`: the module's static
`bind_key_map`, the keys intercepted via `rl_bind_key`, per-object
reference-count deltas, the current `PyThreadState` (`PyThreadState_GET`),
the CPython error indicator, and readline's `rl_point` and `rl_end`. -/
structure RLState where
  bind_key_map : Nat → Binding
  intercepted : Nat → Bool
  refs : Nat → Int
  cur_tstate : Nat
  pendingError : Bool
  rl_point : Int
  rl_end : Int

/-- The two registration-time errors of `bind_key`, both raised as
`PyExc_TypeError` in the source with distinct messages:
`NotCallable` is "bind_key requires callable as second argument",
`InvalidKeyCode` is "bind_key requires key ordinal as first argument". -/
inductive BindKeyError where
  | NotCallable
  | InvalidKeyCode
deriving DecidableEq, Repr

/-- Events emitted on the dispatch path, in the order the C code performs
them: `PyEval_RestoreThread` (enter the managed context), the handler
invocation with the argument tuple built by `Py_BuildValue("(ii)", count,
key)`, and `PyEval_SaveThread` (leave the managed context). -/
inductive Event where
  | restoreThread (t : Nat)
  | call (cb : PyObj) (args : Int × Int)
  | saveThread
deriving DecidableEq, Repr

/-- The handler-invocation events of a dispatch trace. -/
def callsOf (tr : List Event) : List Event :=
  tr.filter fun e =>
    match e with
    | .call _ _ => true
    | _ => false

/-- `bind_key(key, callback)` from `_rlext.c`.

```c
if (PyArg_ParseTuple(args, "iO:bind_key", &key, &callback)) {
    if (!PyCallable_Check(callback)) {
        PyErr_SetString(PyExc_TypeError, "bind_key requires callable as second argument");
        return NULL;
    }
    if (key < 0 || key > 255) {
        PyErr_SetString(PyExc_TypeError, "bind_key requires key ordinal as first argument");
        return NULL;
    }
    bind_key_map[key].callback = callback;
    bind_key_map[key].tstate = PyThreadState_GET();
    rl_bind_key(key, bind_key_handler);
    Py_XINCREF(bind_key_map[key].callback);
    Py_INCREF(Py_None);
    result = Py_None;
}
```

We model the post-parse behavior (the claims concern an integer key and an
object handler, which the `"iO"` format always parses). The success path
overwrites the slot without any `Py_DECREF` of the previously stored
callback — only the new callback is increfed — exactly as in the source. -/
def bind_key (s : RLState) (key : Int) (callback : PyObj) :
    RLState × Except BindKeyError Unit :=
  if callback.callable = false then
    ({ s with pendingError := true }, .error .NotCallable)
  else if key < 0 || key > 255 then
    ({ s with pendingError := true }, .error .InvalidKeyCode)
  else
    let k := key.toNat
    ({ s with
        bind_key_map := Function.update s.bind_key_map k ⟨some callback, s.cur_tstate⟩,
        intercepted := Function.update s.intercepted k true,
        refs := Function.update s.refs callback.id (s.refs callback.id + 1) },
     .ok ())

/-- `bind_key_handler(count, key)` from `_rlext.c`, the callback readline
invokes on a press of an intercepted key.

```c
PyEval_RestoreThread(bind_key_map[key].tstate);
args = Py_BuildValue("(ii)", count, key);
result = PyEval_CallObject(bind_key_map[key].callback, args);
if (result == NULL) {
    PyErr_Clear();
    Py_XDECREF(result);
} else {
    Py_DECREF(result);
}
Py_DECREF(args);
bind_key_map[key].tstate = PyEval_SaveThread();
return 0;
```

The result is the updated state, the int returned to readline (always 0),
and the ordered event trace. `PyEval_SaveThread` returns the thread state
made current by the bracketing `PyEval_RestoreThread`, so the slot's
`tstate` is written back with the same token. Calling through a NULL
callback slot is undefined behavior in C; readline only invokes this
handler for keys bound through `rl_bind_key`, so the embedding returns
`none` in that unreachable case. -/
def bind_key_handler (s : RLState) (count key : Int) :
    Option (RLState × Int × List Event) :=
  match (s.bind_key_map key.toNat).callback with
  | none => none
  | some cb =>
    let t := (s.bind_key_map key.toNat).tstate
    let s1 := { s with pendingError := (if cb.fails then true else s.pendingError) }
    let s2 := if cb.fails then { s1 with pendingError := false } else s1
    let s3 := { s2 with
        bind_key_map := Function.update s2.bind_key_map key.toNat ⟨some cb, t⟩ }
    some (s3, 0, [Event.restoreThread t, Event.call cb (count, key), Event.saveThread])

/-- `cursor([offset])` from `_rlext.c`.

```c
if (!PyArg_ParseTuple(args, "|i:set_cursor", &rl_point))
    return NULL;
if (rl_point > rl_end)
    rl_point = rl_end;
if (rl_point < 0)
    rl_point = 0;
return PyInt_FromLong(rl_point);
```

`PyArg_ParseTuple` with the optional `"|i"` format stores the argument
directly into `rl_point` when one is supplied and leaves `rl_point`
untouched when called with no argument; the two clamping tests then run
unconditionally, in source order (upper bound first, then lower bound). -/
def cursor (s : RLState) (arg : Option Int) : RLState × Int :=
  let p0 := match arg with
    | some off => off
    | none => s.rl_point
  let p1 := if p0 > s.rl_end then s.rl_end else p0
  let p2 := if p1 < 0 then 0 else p1
  ({ s with rl_point := p2 }, p2)

/-- The module's initial state: the static `bind_key_map` is
zero-initialized (every callback NULL), no key intercepted, no pending
error, and reference-count deltas at zero. -/
def rlInit : RLState where
  bind_key_map := fun _ => ⟨none, 0⟩
  intercepted := fun _ => false
  refs := fun _ => 0
  cur_tstate := 0
  pendingError := false
  rl_point := 0
  rl_end := 0

/-- A concrete callable handler that succeeds when invoked. -/
def demoH1 : PyObj := ⟨1, true, false⟩

/-- A second concrete callable handler that succeeds when invoked. -/
def demoH2 : PyObj := ⟨2, true, false⟩

/-- A concrete callable handler that raises when invoked. -/
def demoFail : PyObj := ⟨3, true, true⟩

/-- A concrete non-callable object. -/
def demoNC : PyObj := ⟨4, false, false⟩

/-- A cursor state with a length-10 buffer and the cursor at offset 3, used
to instantiate the cursor theorems on the spec's worked examples. -/
def demoBuf : RLState := { rlInit with rl_point := 3, rl_end := 10 }

theorem bind_key_notCallable_eq (s : RLState) (key : Int) (cb : PyObj)
    (hnc : cb.callable = false) :
    bind_key s key cb = ({ s with pendingError := true }, .error .NotCallable) := by
  unfold bind_key
  rw [if_pos hnc]

theorem bind_key_outOfRange_eq (s : RLState) (key : Int) (cb : PyObj)
    (hc : cb.callable = true) (hk : key < 0 ∨ key > 255) :
    bind_key s key cb = ({ s with pendingError := true }, .error .InvalidKeyCode) := by
  unfold bind_key
  rw [if_neg (by simp [hc])]
  rw [if_pos (by simp only [Bool.or_eq_true, decide_eq_true_eq]; omega)]

theorem bind_key_ok_eq (s : RLState) (key : Int) (cb : PyObj)
    (hc : cb.callable = true) (h0 : 0 ≤ key) (h255 : key ≤ 255) :
    bind_key s key cb =
      ({ s with
          bind_key_map := Function.update s.bind_key_map key.toNat ⟨some cb, s.cur_tstate⟩,
          intercepted := Function.update s.intercepted key.toNat true,
          refs := Function.update s.refs cb.id (s.refs cb.id + 1) },
        .ok ()) := by
  unfold bind_key
  rw [if_neg (by simp [hc])]
  rw [if_neg (by simp only [Bool.or_eq_true, decide_eq_true_eq, not_or, not_lt]; omega)]

theorem bind_key_handler_eq (s : RLState) (count key : Int) (cb : PyObj)
    (hreg : (s.bind_key_map key.toNat).callback = some cb) :
    bind_key_handler s count key =
      some ({ s with
              pendingError := if cb.fails then false else s.pendingError,
              bind_key_map := Function.update s.bind_key_map key.toNat
                ⟨some cb, (s.bind_key_map key.toNat).tstate⟩ },
            0,
            [Event.restoreThread ((s.bind_key_map key.toNat).tstate),
             Event.call cb (count, key), Event.saveThread]) := by
  unfold bind_key_handler
  rw [hreg]
  cases hf : cb.fails <;> simp [hf]

/-- C1: for every key code k in [0,255] and every callable handler h,
`bind_key(k, h)` succeeds and a subsequent dispatch of k (readline invoking
`bind_key_handler` with some repeat count) calls h exactly once, with the
argument tuple `(repeat_count, k)` in that order. -/
theorem register_then_dispatch_invokes_once (s : RLState) (k count : Int) (h : PyObj)
    (hc : h.callable = true) (h0 : 0 ≤ k) (h255 : k ≤ 255) :
    (bind_key s k h).2 = .ok () ∧
    ∃ s' tr, bind_key_handler (bind_key s k h).1 count k = some (s', 0, tr) ∧
      callsOf tr = [Event.call h (count, k)] := by
  rw [bind_key_ok_eq s k h hc h0 h255]
  refine ⟨rfl, ?_⟩
  rw [bind_key_handler_eq _ count k h (by simp)]
  exact ⟨_, _, rfl, by simp [callsOf]⟩

/-- C1 witness: registering `demoH1` on key 65 in the initial state and
dispatching key 65 with repeat count 3 invokes `demoH1` exactly once with
arguments (3, 65). -/
theorem register_then_dispatch_invokes_once_witness :
    (bind_key rlInit 65 demoH1).2 = .ok () ∧
    ∃ s' tr, bind_key_handler (bind_key rlInit 65 demoH1).1 3 65 = some (s', 0, tr) ∧
      callsOf tr = [Event.call demoH1 (3, 65)] :=
  register_then_dispatch_invokes_once rlInit 65 3 demoH1 rfl (by decide) (by decide)

/-- C6: every dispatch of a registered key brackets the handler invocation
with the execution-context switch, in this exact order and never omitted:
`PyEval_RestoreThread` (enter the managed context), the handler call,
`PyEval_SaveThread` (leave it), after which control returns to readline
with status 0. -/
theorem dispatch_brackets_context_switch (s : RLState) (count key : Int) (cb : PyObj)
    (hreg : (s.bind_key_map key.toNat).callback = some cb) :
    ∃ s', bind_key_handler s count key =
      some (s', 0,
        [Event.restoreThread ((s.bind_key_map key.toNat).tstate),
         Event.call cb (count, key),
         Event.saveThread]) :=
  ⟨_, bind_key_handler_eq s count key cb hreg⟩

/-- C6 witness: dispatching key 7 after registering `demoH1` on it produces
exactly the trace enter-context, invoke, leave-context. -/
theorem dispatch_brackets_context_switch_witness :
    ∃ s', bind_key_handler (bind_key rlInit 7 demoH1).1 2 7 =
      some (s', 0,
        [Event.restoreThread (((bind_key rlInit 7 demoH1).1.bind_key_map (7 : Int).toNat).tstate),
         Event.call demoH1 (2, 7),
         Event.saveThread]) :=
  dispatch_brackets_context_switch (bind_key rlInit 7 demoH1).1 2 7 demoH1 (by decide)

/-- C3: when the handler registered on a key fails during dispatch, the
failure is swallowed (`PyErr_Clear`): no error indicator remains pending,
dispatch still returns the fixed status 0 that it also returns on success,
and a subsequent dispatch of any registered key is processed normally
(its handler invoked exactly once with its repeat count and key, again
with status 0). -/
theorem handler_failure_swallowed (s : RLState) (count key : Int) (cb : PyObj)
    (hreg : (s.bind_key_map key.toNat).callback = some cb) (hfail : cb.fails = true) :
    ∃ s' tr, bind_key_handler s count key = some (s', 0, tr) ∧
      s'.pendingError = false ∧
      ∀ key2 count2 cb2, (s'.bind_key_map key2.toNat).callback = some cb2 →
        ∃ s'' tr2, bind_key_handler s' count2 key2 = some (s'', 0, tr2) ∧
          callsOf tr2 = [Event.call cb2 (count2, key2)] := by
  rw [bind_key_handler_eq s count key cb hreg]
  refine ⟨_, _, rfl, by simp [hfail], ?_⟩
  intro key2 count2 cb2 hreg2
  rw [bind_key_handler_eq _ count2 key2 cb2 hreg2]
  exact ⟨_, _, rfl, by simp [callsOf]⟩

/-- C3 witness: with the failing handler `demoFail` on key 10 and `demoH1`
on key 11, dispatching key 10 swallows the failure, returns 0, leaves no
pending error, and any registered key afterwards still dispatches
normally. -/
theorem handler_failure_swallowed_witness :
    ∃ s' tr,
      bind_key_handler (bind_key (bind_key rlInit 10 demoFail).1 11 demoH1).1 3 10 =
        some (s', 0, tr) ∧
      s'.pendingError = false ∧
      ∀ key2 count2 cb2, (s'.bind_key_map key2.toNat).callback = some cb2 →
        ∃ s'' tr2, bind_key_handler s' count2 key2 = some (s'', 0, tr2) ∧
          callsOf tr2 = [Event.call cb2 (count2, key2)] :=
  handler_failure_swallowed (bind_key (bind_key rlInit 10 demoFail).1 11 demoH1).1
    3 10 demoFail (by decide) rfl

/-- The state after `bind_key(65, demoH1)` from the initial state. -/
def s1demo : RLState := (bind_key rlInit 65 demoH1).1

/-- The state after re-registering key 65 with `demoH2` on top of
`s1demo`. -/
def s2demo : RLState := (bind_key s1demo 65 demoH2).1

/-- C2 counterexample: after two successful registrations of key 65, first
with `demoH1` and then with `demoH2`, the slot holds only `demoH2` — but the
reference the registry took for `demoH1` (refcount delta 1 after the first
registration) is still held after the replacement: the source overwrites
`bind_key_map[key].callback` without any `Py_DECREF` of the old callback, so
the old handler is leaked, not released as the claim states. -/
theorem rebind_does_not_release_old_handler :
    (bind_key rlInit 65 demoH1).2 = .ok () ∧
    (bind_key s1demo 65 demoH2).2 = .ok () ∧
    (s2demo.bind_key_map 65).callback = some demoH2 ∧
    s1demo.refs demoH1.id = 1 ∧
    s2demo.refs demoH1.id = 1 := by
  refine ⟨rfl, rfl, by decide, by decide, by decide⟩

/-- C2 amended: re-registering a key code replaces the prior binding — the
slot holds only the new handler h2, so at most one binding exists for the
key and every subsequent dispatch of it invokes only h2, never the old
handler h1 — but the replacement does not release the old handler: the
reference taken for h1 at its registration is still held afterwards. -/
theorem rebind_replaces_binding (s : RLState) (k : Int) (h1 h2 : PyObj)
    (hc1 : h1.callable = true) (hc2 : h2.callable = true)
    (h0 : 0 ≤ k) (h255 : k ≤ 255) (hid : h1.id ≠ h2.id) :
    ((bind_key (bind_key s k h1).1 k h2).1.bind_key_map k.toNat).callback = some h2 ∧
    (∀ count, ∃ s' tr,
        bind_key_handler (bind_key (bind_key s k h1).1 k h2).1 count k = some (s', 0, tr) ∧
        callsOf tr = [Event.call h2 (count, k)] ∧
        ∀ args, Event.call h1 args ∉ tr) ∧
    (bind_key (bind_key s k h1).1 k h2).1.refs h1.id = (bind_key s k h1).1.refs h1.id := by
  have hne : h1 ≠ h2 := fun he => hid (congrArg PyObj.id he)
  rw [bind_key_ok_eq s k h1 hc1 h0 h255, bind_key_ok_eq _ k h2 hc2 h0 h255]
  refine ⟨by simp, ?_, by simp [Function.update_noteq hid]⟩
  intro count
  rw [bind_key_handler_eq _ count k h2 (by simp)]
  refine ⟨_, _, rfl, by simp [callsOf], ?_⟩
  intro args
  simp [hne]

/-- C2 amended witness: registering `demoH1` then `demoH2` on key 65 leaves
only `demoH2` bound, dispatch invokes only `demoH2`, and the reference held
for `demoH1` is unchanged by the replacement. -/
theorem rebind_replaces_binding_witness :
    ((bind_key (bind_key rlInit 65 demoH1).1 65 demoH2).1.bind_key_map
        (65 : Int).toNat).callback = some demoH2 ∧
    (∀ count, ∃ s' tr,
        bind_key_handler (bind_key (bind_key rlInit 65 demoH1).1 65 demoH2).1 count 65 =
          some (s', 0, tr) ∧
        callsOf tr = [Event.call demoH2 (count, 65)] ∧
        ∀ args, Event.call demoH1 args ∉ tr) ∧
    (bind_key (bind_key rlInit 65 demoH1).1 65 demoH2).1.refs demoH1.id =
      (bind_key rlInit 65 demoH1).1.refs demoH1.id :=
  rebind_replaces_binding rlInit 65 demoH1 demoH2 rfl rfl (by decide) (by decide) (by decide)

/-- C4: for every callable handler and every key code outside [0,255],
`bind_key` fails with the `InvalidKeyCode` error (the `TypeError` whose
message names the key ordinal) and performs no clamping and no mutation:
the resulting state differs from the input state only in the raised error
indicator — `bind_key_map`, the intercepted keys and all reference counts
are exactly those of the input state. -/
theorem register_out_of_range_rejected (s : RLState) (k : Int) (h : PyObj)
    (hc : h.callable = true) (hk : k < 0 ∨ k > 255) :
    bind_key s k h = ({ s with pendingError := true }, .error .InvalidKeyCode) :=
  bind_key_outOfRange_eq s k h hc hk

/-- C4 witness: both `bind_key(-1, demoH1)` and `bind_key(256, demoH1)` fail
with `InvalidKeyCode` and leave the table unchanged. -/
theorem register_out_of_range_rejected_witness :
    bind_key rlInit (-1) demoH1 = ({ rlInit with pendingError := true }, .error .InvalidKeyCode) ∧
    bind_key rlInit 256 demoH1 = ({ rlInit with pendingError := true }, .error .InvalidKeyCode) :=
  ⟨register_out_of_range_rejected rlInit (-1) demoH1 rfl (Or.inl (by decide)),
   register_out_of_range_rejected rlInit 256 demoH1 rfl (Or.inr (by decide))⟩

/-- C5: for every key code and every non-callable handler argument,
`bind_key` fails synchronously with the `NotCallable` error and mutates
nothing beyond raising the error: no registry slot is written, no key is
newly intercepted via `rl_bind_key`, and no reference count changes. -/
theorem register_not_callable_rejected (s : RLState) (k : Int) (h : PyObj)
    (hnc : h.callable = false) :
    bind_key s k h = ({ s with pendingError := true }, .error .NotCallable) :=
  bind_key_notCallable_eq s k h hnc

/-- C5 witness: registering the non-callable `demoNC` on the in-range key 65
fails with `NotCallable` and leaves the state unchanged apart from the
raised error. -/
theorem register_not_callable_rejected_witness :
    bind_key rlInit 65 demoNC = ({ rlInit with pendingError := true }, .error .NotCallable) :=
  register_not_callable_rejected rlInit 65 demoNC rfl

/-- C9: `bind_key` checks callability before the key range: a non-callable
handler is rejected with `NotCallable` whatever the key code (also when the
key is out of range), and an `InvalidKeyCode` error can only arise for a
callable handler. -/
theorem register_checks_callable_before_range (s : RLState) (k : Int) (h : PyObj) :
    (h.callable = false → (bind_key s k h).2 = .error .NotCallable) ∧
    ((bind_key s k h).2 = .error .InvalidKeyCode → h.callable = true) := by
  constructor
  · intro hnc
    rw [bind_key_notCallable_eq s k h hnc]
  · intro herr
    by_contra hnc
    rw [bind_key_notCallable_eq s k h (by simpa using hnc)] at herr
    exact absurd herr (by simp)

/-- C9 witness: registering the non-callable `demoNC` on the out-of-range
key -1 reports `NotCallable`, not `InvalidKeyCode`. -/
theorem register_checks_callable_before_range_witness :
    (bind_key rlInit (-1) demoNC).2 = .error .NotCallable :=
  (register_checks_callable_before_range rlInit (-1) demoNC).1 rfl

/-- A cursor state whose stored offset 42 exceeds the buffer length 10, used
to exhibit the unconditional clamp of the no-argument call. -/
def demoBad : RLState := { rlInit with rl_point := 42, rl_end := 10 }

/-- C7: for every offset and every state whose buffer length `rl_end` is
non-negative, `cursor(offset)` stores the offset clamped into
[0, rl_end] and returns exactly that stored value. -/
theorem cursor_set_clamps (s : RLState) (off : Int) (hend : 0 ≤ s.rl_end) :
    (cursor s (some off)).2 = max 0 (min off s.rl_end) ∧
    (cursor s (some off)).1.rl_point = max 0 (min off s.rl_end) := by
  constructor <;> (simp only [cursor]; split_ifs <;> omega)

/-- C7 witness: on a length-10 buffer, `cursor(1000)` clamps to 10 and
`cursor(-5)` clamps to 0, each returning the stored result. -/
theorem cursor_set_clamps_witness :
    ((cursor demoBuf (some 1000)).2 = max 0 (min 1000 demoBuf.rl_end) ∧
      (cursor demoBuf (some 1000)).1.rl_point = max 0 (min 1000 demoBuf.rl_end)) ∧
    ((cursor demoBuf (some (-5))).2 = max 0 (min (-5) demoBuf.rl_end) ∧
      (cursor demoBuf (some (-5))).1.rl_point = max 0 (min (-5) demoBuf.rl_end)) :=
  ⟨cursor_set_clamps demoBuf 1000 (by decide),
   cursor_set_clamps demoBuf (-5) (by decide)⟩

/-- C8: in every state satisfying readline's cursor invariant
`0 ≤ rl_point ≤ rl_end`, calling `cursor()` with no argument returns the
current offset and leaves the whole state — in particular the cursor
position — unchanged. -/
theorem cursor_noarg_returns_current (s : RLState)
    (h0 : 0 ≤ s.rl_point) (h1 : s.rl_point ≤ s.rl_end) :
    cursor s none = (s, s.rl_point) := by
  simp only [cursor]
  rw [if_neg (by omega), if_neg (by omega)]

/-- C8 witness: with the cursor at offset 3 of a length-10 buffer,
`cursor()` returns 3 and changes nothing. -/
theorem cursor_noarg_returns_current_witness :
    cursor demoBuf none = (demoBuf, demoBuf.rl_point) :=
  cursor_noarg_returns_current demoBuf (by decide) (by decide)

/-- C10: after every call of `cursor` — with or without an argument — in a
state with non-negative buffer length, the stored cursor position lies in
[0, rl_end] (the clamp runs unconditionally, also on the no-argument path)
and the returned value equals the stored position; the buffer length itself
is untouched. -/
theorem cursor_result_in_range (s : RLState) (arg : Option Int) (hend : 0 ≤ s.rl_end) :
    0 ≤ (cursor s arg).1.rl_point ∧
    (cursor s arg).1.rl_point ≤ (cursor s arg).1.rl_end ∧
    (cursor s arg).2 = (cursor s arg).1.rl_point ∧
    (cursor s arg).1.rl_end = s.rl_end := by
  refine ⟨?_, ?_, ?_, ?_⟩
  · cases arg <;> simp only [cursor] <;> split_ifs <;> omega
  · cases arg <;> simp only [cursor] <;> split_ifs <;> omega
  · cases arg <;> rfl
  · cases arg <;> rfl

/-- C10 witness: a no-argument call in a state whose stored offset 42
exceeds the buffer length 10 still clamps — afterwards the position is in
[0, 10] and the returned value equals the stored position. -/
theorem cursor_result_in_range_witness :
    0 ≤ (cursor demoBad none).1.rl_point ∧
    (cursor demoBad none).1.rl_point ≤ (cursor demoBad none).1.rl_end ∧
    (cursor demoBad none).2 = (cursor demoBad none).1.rl_point ∧
    (cursor demoBad none).1.rl_end = demoBad.rl_end :=
  cursor_result_in_range demoBad none (by decide)
